import Mathlib

/-!
Shallow embedding of the ESP-LabNode firmware core (src/main/main.c):
the DHT single-wire sensor decoder and the relay duty-cycle scheduler.

Machine integers are modelled as `Nat` with explicit `% 2^32` where the
C code uses `uint32_t`, and `% 256` where it uses `uint8_t`.
-/

namespace LabNode

/-- Modulus of the target's `uint32_t`. -/
def U32 : Nat := 2 ^ 32

/-- Wraparound-safe `uint32_t` subtraction `a - b`, as the C expression
`current_time - relay_timer.last_toggle` computes it (main.c:724). -/
def u32sub (a b : Nat) : Nat := (a % U32 + U32 - b % U32) % U32

/-- The timer structure `timer_config_t` (main.c:75-81). `on_duration`,
`off_duration`, `last_toggle` are `uint32_t` (kept `< U32` by the
operations); `enabled`, `current_state` are `bool`. -/
structure timer_config_t where
  enabled : Bool
  on_duration : Nat
  off_duration : Nat
  last_toggle : Nat
  current_state : Bool
deriving Repr, DecidableEq

/-- Initial value of the global `relay_timer` (main.c:83-89). -/
def relay_timer_init : timer_config_t :=
  { enabled := false, on_duration := 0, off_duration := 0,
    last_toggle := 0, current_state := false }

/-- Scheduler-visible device state: the `relay_timer` global plus the
physical level of `RELAY_GPIO` (set by `gpio_set_level(RELAY_GPIO, _)`). -/
structure DeviceState where
  timer : timer_config_t
  relay : Bool
deriving Repr, DecidableEq

/-- One iteration of the body of `timer_control_task` (main.c:720-738).
`now_ms` is the value `esp_timer_get_time() / 1000` (milliseconds since
boot, a mathematical integer); the code truncates it into the `uint32_t`
`current_time`, hence `% U32`. -/
def timer_control_step (st : DeviceState) (now_ms : Nat) : DeviceState :=
  if st.timer.enabled then
    let current_time := now_ms % U32
    let elapsed := u32sub current_time st.timer.last_toggle
    if st.timer.current_state ∧ st.timer.on_duration ≤ elapsed then
      { timer := { st.timer with current_state := false, last_toggle := current_time },
        relay := false }
    else if (st.timer.current_state = false) ∧ st.timer.off_duration ≤ elapsed then
      { timer := { st.timer with current_state := true, last_toggle := current_time },
        relay := true }
    else st
  else st

/-- The relay POST request body, after the `strstr` matching of
`relay_post_handler` (main.c:583-589): `some true` when the body contains
`"state":"on"`, `some false` when it contains `"state":"off"` (checked in
that order by the else-if chain), `none` otherwise (`success` stays false). -/
def RelayReq := Option Bool

/-- The mutation performed by `relay_post_handler` on success
(main.c:591-594): `relay_timer.enabled = false` and
`gpio_set_level(RELAY_GPIO, state)`; nothing else is written.
On a non-matching body nothing is written. -/
def relay_post_handler (st : DeviceState) (req : Option Bool) : DeviceState :=
  match req with
  | some s => { timer := { st.timer with enabled := false }, relay := s }
  | none => st

/-- The timer POST request body, after the `strstr` matching of
`timer_handler` (main.c:634-650): `enabledField` is `some true` when the
body contains `"enabled":true`, `some false` when it contains
`"enabled":false` (else-if order), else `none`; `onDurationField` /
`offDurationField` hold the `atoi` value (an `int`, possibly negative)
when the respective key is present. -/
structure TimerPostReq where
  enabledField : Option Bool
  onDurationField : Option Int
  offDurationField : Option Int

/-- Conversion of the C `int` expression `atoi(...) * 1000` to the
`uint32_t` duration field: multiply by 1000 and reduce modulo 2^32
(two's-complement conversion for negative values). -/
def durToU32 (secs : Int) : Nat := ((secs * 1000) % (U32 : Int)).toNat

/-- The mutation performed by the POST branch of `timer_handler`
(main.c:626-653) on an accepted request (`httpd_req_recv` succeeded):
the `"enabled"` else-if chain (disabling also forces the relay low and
`current_state = false`, main.c:636-639), then the duration updates,
then unconditionally `relay_timer.last_toggle = esp_timer_get_time() / 1000`
(main.c:652). -/
def timer_post_handler (st : DeviceState) (req : TimerPostReq) (now_ms : Nat) :
    DeviceState :=
  let s1 : DeviceState :=
    match req.enabledField with
    | some true => { st with timer := { st.timer with enabled := true } }
    | some false =>
        { timer := { st.timer with enabled := false, current_state := false },
          relay := false }
    | none => st
  let s2 : DeviceState :=
    match req.onDurationField with
    | some secs => { s1 with timer := { s1.timer with on_duration := durToU32 secs } }
    | none => s1
  let s3 : DeviceState :=
    match req.offDurationField with
    | some secs => { s2 with timer := { s2.timer with off_duration := durToU32 secs } }
    | none => s2
  { s3 with timer := { s3.timer with last_toggle := now_ms % U32 } }

/-! ## Signal decoder (DHT sensor) -/

/-- The `esp_err_t` values the decoder produces: `ESP_OK`,
`ESP_ERR_NOT_FOUND`, `ESP_ERR_TIMEOUT`, `ESP_ERR_INVALID_CRC`. -/
inductive EspErr where
  | OK
  | ERR_NOT_FOUND
  | ERR_TIMEOUT
  | ERR_INVALID_CRC
deriving Repr, DecidableEq

/-- Constant `DHT_TIMEOUT_US` (main.c:39). -/
def DHT_TIMEOUT_US : Nat := 10000

/-- Constant `DHT_START_SIGNAL_US` (main.c:40). -/
def DHT_START_SIGNAL_US : Nat := 18000

/-- The environment of one decode attempt: `line t` is the value
`gpio_get_level(DHT_GPIO)` returns when sampled at microsecond `t` of the
attempt. `-1` models the "line unreadable" fault of main.c:473; reads
cost no time, `esp_rom_delay_us(n)` advances `t` by `n`. -/
structure DhtEnv where
  line : Nat → Int

/-- Polling loop of `dht_wait_for_level` (main.c:436-445), unrolled on the
number of remaining reads. Each failed read is followed by
`esp_rom_delay_us(1)`; success returns the current time. -/
def dht_wait_aux (env : DhtEnv) (level : Int) : Nat → Nat → Option Nat
  | 0, _ => none
  | fuel + 1, t => if env.line t = level then some t else dht_wait_aux env level fuel (t + 1)

/-- Function `dht_wait_for_level` (main.c:436-445): with post-increment
`tries++ > timeout_us`, the loop performs exactly `timeout_us + 2` reads
before giving up (`tries` runs 0 .. `timeout_us + 1`). `some t'` is
`ESP_OK` with the line observed at `level` at time `t'`; `none` is
`ESP_ERR_TIMEOUT`. -/
def dht_wait_for_level (env : DhtEnv) (level : Int) (timeout_us : Nat) (t : Nat) :
    Option Nat :=
  dht_wait_aux env level (timeout_us + 2) t

/-- Loop body of `dht_read_byte` (main.c:447-463), on the number of bits
left: wait for the line high, `esp_rom_delay_us(40)`, `*data <<= 1`
(uint8_t store, hence `% 256`), set the low bit when the sampled level
is 1, then wait for the line low. -/
def dht_read_byte_aux (env : DhtEnv) : Nat → Nat → Nat → Option (Nat × Nat)
  | 0, data, t => some (data, t)
  | i + 1, data, t =>
    match dht_wait_for_level env 1 DHT_TIMEOUT_US t with
    | none => none
    | some t1 =>
      let t2 := t1 + 40
      let shifted := data * 2 % 256
      let data2 := if env.line t2 = 1 then shifted + 1 else shifted
      match dht_wait_for_level env 0 DHT_TIMEOUT_US t2 with
      | none => none
      | some t3 => dht_read_byte_aux env i data2 t3

/-- Function `dht_read_byte` (main.c:447-463): 8 bits into `*data`, starting from
`*data = 0`. Returns the byte and the time after the final wait, or
`none` for `ESP_ERR_TIMEOUT`. -/
def dht_read_byte (env : DhtEnv) (t : Nat) : Option (Nat × Nat) :=
  dht_read_byte_aux env 8 0 t

/-- The `for (int i = 0; i < 5; i++)` loop of `read_sensor_safe`
(main.c:507-514): `n` successive `dht_read_byte` calls, bytes collected
in receive order (`data[i]` is the `i`-th byte read). -/
def dht_read_bytes (env : DhtEnv) : Nat → Nat → Option (List Nat × Nat)
  | 0, t => some ([], t)
  | n + 1, t =>
    match dht_read_byte env t with
    | none => none
    | some (b, t1) =>
      match dht_read_bytes env n t1 with
      | none => none
      | some (bs, t2) => some (b :: bs, t2)

/-- One bit as §4.1 step 4 of the spec words it: wait for the line high
(bounded), hold 40 µs, sample — a high sample yields `true` — then wait
for the line low (bounded). Used to compare `dht_read_byte` against the
spec's per-bit description. -/
def dht_read_bit (env : DhtEnv) (t : Nat) : Option (Bool × Nat) :=
  match dht_wait_for_level env 1 DHT_TIMEOUT_US t with
  | none => none
  | some t1 =>
    let bit := decide (env.line (t1 + 40) = 1)
    match dht_wait_for_level env 0 DHT_TIMEOUT_US (t1 + 40) with
    | none => none
    | some t2 => some (bit, t2)

/-- Reading `n` successive bits via `dht_read_bit`, in receive order. -/
def dht_read_bits (env : DhtEnv) : Nat → Nat → Option (List Bool × Nat)
  | 0, t => some ([], t)
  | n + 1, t =>
    match dht_read_bit env t with
    | none => none
    | some (b, t1) =>
      match dht_read_bits env n t1 with
      | none => none
      | some (bs, t2) => some (b :: bs, t2)

/-- Most-significant-bit-first accumulation step (`*data <<= 1` on a
`uint8_t`, then `*data |= 1` on a high sample). -/
def msbAccum (data : Nat) (b : Bool) : Nat := data * 2 % 256 + (if b then 1 else 0)

/-- The checksum test and value derivation of `read_sensor_safe`
(main.c:519-527) as a pure function of the five received bytes:
`data[4] != ((data[0]+data[1]+data[2]+data[3]) & 0xFF)` rejects with
`ESP_ERR_INVALID_CRC`; otherwise `*humidity = data[0] + data[1] * 0.1`
and `*temperature = data[2] + data[3] * 0.1` (exact rational values). -/
def dht_decode (b0 b1 b2 b3 b4 : Nat) : EspErr × Option ℚ × Option ℚ :=
  if b4 ≠ (b0 + b1 + b2 + b3) % 256 then
    (EspErr.ERR_INVALID_CRC, none, none)
  else
    (EspErr.OK, some ((b0 : ℚ) + (b1 : ℚ) * (1 / 10)),
      some ((b2 : ℚ) + (b3 : ℚ) * (1 / 10)))

/-- Observable outcome of one `read_sensor_safe` call: the returned
`esp_err_t`, the output values (populated only on `ESP_OK`), and the
resource state at return — whether `DHT_GPIO` is in input mode, whether
interrupts are enabled, and (ghost instrumentation) whether
`portDISABLE_INTERRUPTS` was ever executed during the call. -/
structure ReadOutcome where
  err : EspErr
  humidity : Option ℚ
  temperature : Option ℚ
  pinInput : Bool
  intEnabled : Bool
  intEverDisabled : Bool
deriving Repr, DecidableEq

/-- Function `read_sensor_safe` (main.c:466-530). Steps, in program order:
set `DHT_GPIO` to input and `vTaskDelay(pdMS_TO_TICKS(10))` (10 ms =
10000 µs); idle check `gpio_get_level == -1` ⇒ `ESP_ERR_NOT_FOUND`
before interrupts are touched; `portDISABLE_INTERRUPTS()`;
`dht_send_start_signal()` (main.c:427-434: output mode, low for 18000 µs,
high for 40 µs, back to input — net time +18040, pin ends in input mode);
waits for level 0, 1, 0 (`ESP_ERR_NOT_FOUND` on the first timeout, the
raw `ESP_ERR_TIMEOUT` on the next two); five `dht_read_byte` calls
(`ESP_ERR_TIMEOUT` propagated); `portENABLE_INTERRUPTS()`; checksum and
value derivation via `dht_decode`. Every error path re-enables
interrupts before returning, and the pin is never left in output mode. -/
def read_sensor_safe (env : DhtEnv) : ReadOutcome :=
  let t0 := 10000
  if env.line t0 = -1 then
    { err := EspErr.ERR_NOT_FOUND, humidity := none, temperature := none,
      pinInput := true, intEnabled := true, intEverDisabled := false }
  else
    let t1 := t0 + DHT_START_SIGNAL_US + 40
    match dht_wait_for_level env 0 DHT_TIMEOUT_US t1 with
    | none =>
      { err := EspErr.ERR_NOT_FOUND, humidity := none, temperature := none,
        pinInput := true, intEnabled := true, intEverDisabled := true }
    | some t2 =>
      match dht_wait_for_level env 1 DHT_TIMEOUT_US t2 with
      | none =>
        { err := EspErr.ERR_TIMEOUT, humidity := none, temperature := none,
          pinInput := true, intEnabled := true, intEverDisabled := true }
      | some t3 =>
        match dht_wait_for_level env 0 DHT_TIMEOUT_US t3 with
        | none =>
          { err := EspErr.ERR_TIMEOUT, humidity := none, temperature := none,
            pinInput := true, intEnabled := true, intEverDisabled := true }
        | some t4 =>
          match dht_read_bytes env 5 t4 with
          | none =>
            { err := EspErr.ERR_TIMEOUT, humidity := none, temperature := none,
              pinInput := true, intEnabled := true, intEverDisabled := true }
          | some (data, _) =>
            let r := dht_decode (data.getD 0 0) (data.getD 1 0) (data.getD 2 0)
              (data.getD 3 0) (data.getD 4 0)
            { err := r.1, humidity := r.2.1, temperature := r.2.2,
              pinInput := true, intEnabled := true, intEverDisabled := true }

/-! ## Helper lemmas -/

/-- With no wraparound (`b ≤ a < 2^32`) the `uint32_t` subtraction is the
ordinary difference. -/
theorem u32sub_eq_sub (a b : Nat) (hb : b ≤ a) (ha : a < U32) : u32sub (a % U32) b = a - b := by
  simp only [u32sub, U32] at *
  omega

/-- The `uint32_t` subtraction of the truncations of two mathematical
timestamps is the true difference reduced modulo 2^32. -/
theorem u32sub_mod (a b : Nat) (h : b ≤ a) : u32sub (a % U32) (b % U32) = (a - b) % U32 := by
  simp only [u32sub, U32]
  omega

/-! ## Claim theorems: duty-cycle scheduler -/

/-- C3: for a tick with `enabled = true` and untruncated timestamps
(`last_toggle ≤ now < 2^32`): in the on phase with
`now - last_toggle ≥ on_duration` the tick drives the relay off, clears
`current_state` and sets `last_toggle := now`; in the off phase with
`now - last_toggle ≥ off_duration` it drives the relay on, sets
`current_state` and `last_toggle := now`; otherwise it changes nothing;
with `enabled = false` it changes nothing. In particular, from
`current_state = false`, `on = 5000`, `off = 3000`, `last_toggle = 0`, a
tick at 2999 does not transition and a tick at 3000 transitions to on. -/
theorem timer_tick_semantics (st : DeviceState) (now : Nat)
    (hnow : now < U32) (hle : st.timer.last_toggle ≤ now) :
    (st.timer.enabled = true → st.timer.current_state = true →
      st.timer.on_duration ≤ now - st.timer.last_toggle →
      timer_control_step st now =
        { timer := { st.timer with current_state := false, last_toggle := now },
          relay := false })
  ∧ (st.timer.enabled = true → st.timer.current_state = false →
      st.timer.off_duration ≤ now - st.timer.last_toggle →
      timer_control_step st now =
        { timer := { st.timer with current_state := true, last_toggle := now },
          relay := true })
  ∧ (st.timer.enabled = true → st.timer.current_state = true →
      now - st.timer.last_toggle < st.timer.on_duration →
      timer_control_step st now = st)
  ∧ (st.timer.enabled = true → st.timer.current_state = false →
      now - st.timer.last_toggle < st.timer.off_duration →
      timer_control_step st now = st)
  ∧ (st.timer.enabled = false → timer_control_step st now = st)
  ∧ timer_control_step ⟨⟨true, 5000, 3000, 0, false⟩, false⟩ 2999 =
      ⟨⟨true, 5000, 3000, 0, false⟩, false⟩
  ∧ timer_control_step ⟨⟨true, 5000, 3000, 0, false⟩, false⟩ 3000 =
      ⟨⟨true, 5000, 3000, 3000, true⟩, true⟩ := by
  have hmod : now % U32 = now := Nat.mod_eq_of_lt hnow
  have hel : u32sub now st.timer.last_toggle = now - st.timer.last_toggle := by
    have h := u32sub_eq_sub now st.timer.last_toggle hle hnow
    rwa [hmod] at h
  refine ⟨?_, ?_, ?_, ?_, ?_, by decide, by decide⟩
  · intro hen hcs hd
    simp [timer_control_step, hen, hcs, hel, hmod, hd]
  · intro hen hcs hd
    simp [timer_control_step, hen, hcs, hel, hmod, hd]
  · intro hen hcs hd
    simp [timer_control_step, hen, hcs, hel, hmod, Nat.not_le.mpr hd]
  · intro hen hcs hd
    simp [timer_control_step, hen, hcs, hel, hmod, Nat.not_le.mpr hd]
  · intro hen
    simp [timer_control_step, hen]

/-- Witness for C3: a concrete on-phase expiry transition. -/
theorem timer_tick_semantics_witness :
    timer_control_step ⟨⟨true, 5000, 3000, 1000, true⟩, true⟩ 6000 =
      ⟨⟨true, 5000, 3000, 6000, false⟩, false⟩ :=
  (timer_tick_semantics ⟨⟨true, 5000, 3000, 1000, true⟩, true⟩ 6000
    (by decide) (by decide)).1 rfl rfl (by decide)

/-- C4: the POST branch of `timer_handler` with `"enabled":false` in the
body forces the relay output low, `current_state = false` and
`enabled = false` in the same operation, whatever else the request
carries and whatever the prior phase was. -/
theorem set_enabled_false_sync (st : DeviceState) (req : TimerPostReq) (now_ms : Nat)
    (h : req.enabledField = some false) :
    (timer_post_handler st req now_ms).timer.enabled = false
  ∧ (timer_post_handler st req now_ms).timer.current_state = false
  ∧ (timer_post_handler st req now_ms).relay = false := by
  simp only [timer_post_handler, h]
  cases req.onDurationField <;> cases req.offDurationField <;> exact ⟨rfl, rfl, rfl⟩

/-- Witness for C4: disabling from the on phase. -/
theorem set_enabled_false_sync_witness :
    (timer_post_handler ⟨⟨true, 5000, 3000, 42, true⟩, true⟩
        ⟨some false, some 7, none⟩ 999).timer.enabled = false
  ∧ (timer_post_handler ⟨⟨true, 5000, 3000, 42, true⟩, true⟩
        ⟨some false, some 7, none⟩ 999).timer.current_state = false
  ∧ (timer_post_handler ⟨⟨true, 5000, 3000, 42, true⟩, true⟩
        ⟨some false, some 7, none⟩ 999).relay = false :=
  set_enabled_false_sync ⟨⟨true, 5000, 3000, 42, true⟩, true⟩ ⟨some false, some 7, none⟩ 999 rfl

/-- C5: the tick's elapsed value is the wraparound-safe `uint32_t`
difference: when `last_toggle` holds `lastT` truncated to 32 bits and the
clock reads `nowT ≥ lastT`, `elapsed = (nowT - lastT) mod 2^32`; and as
long as the true elapsed time is below 2^32 and below the current phase's
duration, the tick performs no spurious transition even if the truncated
counter wrapped (`nowT % 2^32 < last_toggle`). -/
theorem tick_wraparound_safe (st : DeviceState) (lastT nowT : Nat)
    (hle : lastT ≤ nowT) (hlast : st.timer.last_toggle = lastT % U32) :
    u32sub (nowT % U32) st.timer.last_toggle = (nowT - lastT) % U32
  ∧ (nowT - lastT < U32 → st.timer.current_state = true →
      nowT - lastT < st.timer.on_duration → timer_control_step st nowT = st)
  ∧ (nowT - lastT < U32 → st.timer.current_state = false →
      nowT - lastT < st.timer.off_duration → timer_control_step st nowT = st) := by
  have hsub : u32sub (nowT % U32) st.timer.last_toggle = (nowT - lastT) % U32 := by
    rw [hlast]
    exact u32sub_mod nowT lastT hle
  have hel : nowT - lastT < U32 →
      u32sub (nowT % U32) st.timer.last_toggle = nowT - lastT := by
    intro hsmall
    rw [hsub]
    exact Nat.mod_eq_of_lt hsmall
  refine ⟨hsub, ?_, ?_⟩
  · intro hsmall hcs hd
    by_cases hen : st.timer.enabled
    · simp [timer_control_step, hen, hcs, hel hsmall, Nat.not_le.mpr hd]
    · simp [timer_control_step, hen]
  · intro hsmall hcs hd
    by_cases hen : st.timer.enabled
    · simp [timer_control_step, hen, hcs, hel hsmall, Nat.not_le.mpr hd]
    · simp [timer_control_step, hen]

/-- Witness for C5: the counter has wrapped (`last_toggle = 2^32 - 1000`,
clock truncates to 500), the true elapsed time is 1500 < 3000, and the
tick leaves the state unchanged. -/
theorem tick_wraparound_safe_witness :
    timer_control_step ⟨⟨true, 5000, 3000, 2 ^ 32 - 1000, false⟩, false⟩ (2 ^ 32 + 500) =
      ⟨⟨true, 5000, 3000, 2 ^ 32 - 1000, false⟩, false⟩ :=
  (tick_wraparound_safe ⟨⟨true, 5000, 3000, 2 ^ 32 - 1000, false⟩, false⟩
      (2 ^ 32 - 1000) (2 ^ 32 + 500) (by norm_num)
      (by simp only [U32]; omega)).2.2 (by norm_num [U32]) rfl (by norm_num)

/-- C9: duration 0 for the current phase is accepted and produces an
immediate phase transition on the next enabled tick (`elapsed ≥ 0` always
holds); `timer_control_step` is a total function, so no tick divides,
takes a modulus by zero, or fails to terminate for any duration values. -/
theorem tick_zero_duration_immediate (st : DeviceState) (now_ms : Nat)
    (hen : st.timer.enabled = true)
    (h0 : (if st.timer.current_state then st.timer.on_duration
           else st.timer.off_duration) = 0) :
    (timer_control_step st now_ms).timer.current_state = !st.timer.current_state
  ∧ (timer_control_step st now_ms).timer.last_toggle = now_ms % U32
  ∧ (timer_control_step st now_ms).relay = !st.timer.current_state := by
  cases hcs : st.timer.current_state with
  | true =>
    rw [hcs] at h0
    simp only [if_true] at h0
    simp [timer_control_step, hen, hcs, h0]
  | false =>
    rw [hcs] at h0
    simp at h0
    simp [timer_control_step, hen, hcs, h0]

/-- Witness for C9: `off_duration = 0`, off phase, tick transitions
immediately. -/
theorem tick_zero_duration_immediate_witness :
    (timer_control_step ⟨⟨true, 5000, 0, 123, false⟩, false⟩ 123).timer.current_state = !false
  ∧ (timer_control_step ⟨⟨true, 5000, 0, 123, false⟩, false⟩ 123).timer.last_toggle = 123 % U32
  ∧ (timer_control_step ⟨⟨true, 5000, 0, 123, false⟩, false⟩ 123).relay = !false :=
  tick_zero_duration_immediate ⟨⟨true, 5000, 0, 123, false⟩, false⟩ 123 rfl rfl

/-- C10: every accepted timer POST request — whether it changes
`enabled`, a duration, both, or nothing at all — unconditionally resets
`last_toggle` to the current clock value, restarting the current phase's
timer. -/
theorem timer_post_resets_last_toggle (st : DeviceState) (req : TimerPostReq) (now_ms : Nat) :
    (timer_post_handler st req now_ms).timer.last_toggle = now_ms % U32 := by
  obtain ⟨e, od, fd⟩ := req
  cases e with
  | none => cases od <;> cases fd <;> rfl
  | some b => cases b <;> cases od <;> cases fd <;> rfl

/-! ## Claim theorems: manual relay override (C2) -/

/-- Counterexample to C2: a POST of `"state":"on"` from the off phase
sets the physical relay high but leaves `current_state = false` —
`relay_post_handler` never writes `current_state`, contradicting the
claim that the override "sets current_state of the scheduler state
accordingly". -/
theorem relay_override_counterexample :
    (relay_post_handler ⟨⟨true, 5000, 3000, 0, false⟩, false⟩ (some true)).relay = true
  ∧ (relay_post_handler ⟨⟨true, 5000, 3000, 0, false⟩, false⟩
      (some true)).timer.current_state = false := by decide

/-- C2 amended: a matching relay POST sets the physical relay to the
requested level and forces `enabled = false` in the same operation, but
leaves `current_state` (and every other timer field) unchanged; with the
scheduler disabled, no subsequent tick changes anything until it is
re-enabled. -/
theorem relay_override_amended (st : DeviceState) (s : Bool) (now_ms : Nat) :
    relay_post_handler st (some s) =
      { timer := { st.timer with enabled := false }, relay := s }
  ∧ (relay_post_handler st (some s)).timer.current_state = st.timer.current_state
  ∧ timer_control_step (relay_post_handler st (some s)) now_ms =
      relay_post_handler st (some s) := by
  exact ⟨rfl, rfl, rfl⟩

/-! ## Claim theorems: signal decoder -/

/-- C1: the decode of a received 5-byte sequence rejects with
`ESP_ERR_INVALID_CRC` exactly when byte 4 differs from
`(b0 + b1 + b2 + b3) mod 256`; on a match it returns
`humidity = b0 + b1 * 0.1` and `temperature = b2 + b3 * 0.1` unclamped;
in particular `[0x32, 0x00, 0x15, 0x05, 0x4C]` decodes to humidity 50
and temperature 21.5. -/
theorem dht_decode_checksum_spec (b0 b1 b2 b3 b4 : Nat) :
    ((dht_decode b0 b1 b2 b3 b4).1 = EspErr.ERR_INVALID_CRC ↔
      b4 ≠ (b0 + b1 + b2 + b3) % 256)
  ∧ (b4 = (b0 + b1 + b2 + b3) % 256 →
      dht_decode b0 b1 b2 b3 b4 =
        (EspErr.OK, some ((b0 : ℚ) + (b1 : ℚ) * (1 / 10)),
          some ((b2 : ℚ) + (b3 : ℚ) * (1 / 10))))
  ∧ dht_decode 0x32 0x00 0x15 0x05 0x4C = (EspErr.OK, some 50, some (43 / 2)) := by
  refine ⟨?_, ?_, by norm_num [dht_decode]⟩
  · by_cases h : b4 = (b0 + b1 + b2 + b3) % 256 <;> simp [dht_decode, h]
  · intro h
    simp [dht_decode, h]

/-- Witness for C1: the matching example vector decodes to the stated
values. -/
theorem dht_decode_checksum_spec_witness :
    dht_decode 0x32 0x00 0x15 0x05 0x4C =
      (EspErr.OK, some ((0x32 : ℚ) + (0x00 : ℚ) * (1 / 10)),
        some ((0x15 : ℚ) + (0x05 : ℚ) * (1 / 10))) :=
  (dht_decode_checksum_spec 0x32 0x00 0x15 0x05 0x4C).2.1 (by decide)

/-- C6: failure classification by stage. An unreadable line at the idle
check yields `ESP_ERR_NOT_FOUND` with interrupts never disabled; a
timeout on the first handshake wait yields `ESP_ERR_NOT_FOUND`; a
timeout on the second or third handshake wait or during the byte reads
yields `ESP_ERR_TIMEOUT`; when all waits succeed the result is exactly
`dht_decode` of the received bytes (`ESP_ERR_INVALID_CRC` on checksum
failure, else `ESP_OK`) — so these are the only results. -/
theorem read_sensor_error_stages (env : DhtEnv) :
    (env.line 10000 = -1 →
      (read_sensor_safe env).err = EspErr.ERR_NOT_FOUND
        ∧ (read_sensor_safe env).intEverDisabled = false)
  ∧ (env.line 10000 ≠ -1 →
      dht_wait_for_level env 0 DHT_TIMEOUT_US (10000 + DHT_START_SIGNAL_US + 40) = none →
      (read_sensor_safe env).err = EspErr.ERR_NOT_FOUND
        ∧ (read_sensor_safe env).intEverDisabled = true)
  ∧ (∀ t2, env.line 10000 ≠ -1 →
      dht_wait_for_level env 0 DHT_TIMEOUT_US (10000 + DHT_START_SIGNAL_US + 40) = some t2 →
      dht_wait_for_level env 1 DHT_TIMEOUT_US t2 = none →
      (read_sensor_safe env).err = EspErr.ERR_TIMEOUT)
  ∧ (∀ t2 t3, env.line 10000 ≠ -1 →
      dht_wait_for_level env 0 DHT_TIMEOUT_US (10000 + DHT_START_SIGNAL_US + 40) = some t2 →
      dht_wait_for_level env 1 DHT_TIMEOUT_US t2 = some t3 →
      dht_wait_for_level env 0 DHT_TIMEOUT_US t3 = none →
      (read_sensor_safe env).err = EspErr.ERR_TIMEOUT)
  ∧ (∀ t2 t3 t4, env.line 10000 ≠ -1 →
      dht_wait_for_level env 0 DHT_TIMEOUT_US (10000 + DHT_START_SIGNAL_US + 40) = some t2 →
      dht_wait_for_level env 1 DHT_TIMEOUT_US t2 = some t3 →
      dht_wait_for_level env 0 DHT_TIMEOUT_US t3 = some t4 →
      dht_read_bytes env 5 t4 = none →
      (read_sensor_safe env).err = EspErr.ERR_TIMEOUT)
  ∧ (∀ t2 t3 t4 data t5, env.line 10000 ≠ -1 →
      dht_wait_for_level env 0 DHT_TIMEOUT_US (10000 + DHT_START_SIGNAL_US + 40) = some t2 →
      dht_wait_for_level env 1 DHT_TIMEOUT_US t2 = some t3 →
      dht_wait_for_level env 0 DHT_TIMEOUT_US t3 = some t4 →
      dht_read_bytes env 5 t4 = some (data, t5) →
      (read_sensor_safe env).err =
        (dht_decode (data.getD 0 0) (data.getD 1 0) (data.getD 2 0)
          (data.getD 3 0) (data.getD 4 0)).1) := by
  refine ⟨?_, ?_, ?_, ?_, ?_, ?_⟩
  · intro h0
    simp [read_sensor_safe, h0]
  · intro h0 h1
    simp [read_sensor_safe, h0, h1]
  · intro t2 h0 h1 h2
    simp [read_sensor_safe, h0, h1, h2]
  · intro t2 t3 h0 h1 h2 h3
    simp [read_sensor_safe, h0, h1, h2, h3]
  · intro t2 t3 t4 h0 h1 h2 h3 h4
    simp [read_sensor_safe, h0, h1, h2, h3, h4]
  · intro t2 t3 t4 data t5 h0 h1 h2 h3 h4
    simp [read_sensor_safe, h0, h1, h2, h3, h4]

/-- Witness for C6: on a dead line (every read returns -1) the decoder
fails with `ESP_ERR_NOT_FOUND` without ever disabling interrupts. -/
theorem read_sensor_error_stages_witness :
    (read_sensor_safe ⟨fun _ => -1⟩).err = EspErr.ERR_NOT_FOUND
  ∧ (read_sensor_safe ⟨fun _ => -1⟩).intEverDisabled = false :=
  (read_sensor_error_stages ⟨fun _ => -1⟩).1 rfl

/-- C7: on every exit path of `read_sensor_safe` — success, the idle
check failure, each handshake or bit-wait timeout, and the checksum
failure — the pin is left in input mode and interrupts are enabled at
return (every `portDISABLE_INTERRUPTS` is matched by a
`portENABLE_INTERRUPTS` before the return). -/
theorem read_sensor_cleanup (env : DhtEnv) :
    (read_sensor_safe env).pinInput = true
  ∧ (read_sensor_safe env).intEnabled = true := by
  by_cases h0 : env.line 10000 = -1
  · simp [read_sensor_safe, h0]
  · rcases hw1 : dht_wait_for_level env 0 DHT_TIMEOUT_US (10000 + DHT_START_SIGNAL_US + 40)
      with _ | t2
    · simp [read_sensor_safe, h0, hw1]
    · rcases hw2 : dht_wait_for_level env 1 DHT_TIMEOUT_US t2 with _ | t3
      · simp [read_sensor_safe, h0, hw1, hw2]
      · rcases hw3 : dht_wait_for_level env 0 DHT_TIMEOUT_US t3 with _ | t4
        · simp [read_sensor_safe, h0, hw1, hw2, hw3]
        · rcases hb : dht_read_bytes env 5 t4 with _ | ⟨data, t5⟩
          · simp [read_sensor_safe, h0, hw1, hw2, hw3, hb]
          · simp [read_sensor_safe, h0, hw1, hw2, hw3, hb]

/-- Accumulator form of the bit loop of `dht_read_byte`: reading `n`
bits and folding them most-significant-bit-first onto `data` is what
`dht_read_byte_aux` computes. -/
theorem dht_read_byte_aux_eq_bits (env : DhtEnv) :
    ∀ (n : Nat) (data t : Nat),
      dht_read_byte_aux env n data t =
        Option.map (fun p => (p.1.foldl msbAccum data, p.2)) (dht_read_bits env n t) := by
  intro n
  induction n with
  | zero =>
    intro data t
    rfl
  | succ n ih =>
    intro data t
    simp only [dht_read_byte_aux, dht_read_bits, dht_read_bit]
    cases h1 : dht_wait_for_level env 1 DHT_TIMEOUT_US t with
    | none => rfl
    | some t1 =>
      dsimp only
      cases h2 : dht_wait_for_level env 0 DHT_TIMEOUT_US (t1 + 40) with
      | none => rfl
      | some t3 =>
        dsimp only
        rw [ih]
        cases h3 : dht_read_bits env n t3 with
        | none => rfl
        | some p =>
          dsimp only [Option.map]
          simp only [List.foldl_cons]
          by_cases hb : env.line (t1 + 40) = 1 <;> simp [msbAccum, hb]

/-- One-step unfolding of the byte-collection loop. -/
theorem dht_read_bytes_succ (env : DhtEnv) (n t : Nat) :
    dht_read_bytes env (n + 1) t =
      match dht_read_byte env t with
      | none => none
      | some (b, t1) =>
        match dht_read_bytes env n t1 with
        | none => none
        | some (bs, t2) => some (b :: bs, t2) := rfl

/-- C8: `dht_read_byte` is exactly eight spec-style bits (wait high,
hold 40 µs, sample, wait low) assembled most-significant-bit-first; an
8-bit list folds to the MSB-first value; and the byte loop of
`read_sensor_safe` collects the bytes in receive order. -/
theorem dht_read_byte_msb_first (env : DhtEnv) (t : Nat) :
    dht_read_byte env t =
      Option.map (fun p => (p.1.foldl msbAccum 0, p.2)) (dht_read_bits env 8 t)
  ∧ (∀ b0 b1 b2 b3 b4 b5 b6 b7 : Bool,
      [b0, b1, b2, b3, b4, b5, b6, b7].foldl msbAccum 0 =
        128 * cond b0 1 0 + 64 * cond b1 1 0 + 32 * cond b2 1 0 + 16 * cond b3 1 0
          + 8 * cond b4 1 0 + 4 * cond b5 1 0 + 2 * cond b6 1 0 + cond b7 1 0)
  ∧ (∀ b t1 rest t2, dht_read_byte env t = some (b, t1) →
      dht_read_bytes env 4 t1 = some (rest, t2) →
      dht_read_bytes env 5 t = some (b :: rest, t2)) := by
  refine ⟨dht_read_byte_aux_eq_bits env 8 0 t, by decide, ?_⟩
  intro b t1 rest t2 h1 h2
  rw [show (5 : Nat) = 4 + 1 from rfl, dht_read_bytes_succ env 4 t, h1]
  dsimp only
  rw [h2]

/-- Witness for C8: on a line that pulses high every 41 µs the decoder
reads five all-zero bytes, with the first byte produced by
`dht_read_byte` prepended in receive order. -/
theorem dht_read_byte_msb_first_witness :
    dht_read_bytes (⟨fun t => if t % 41 = 40 then 1 else 0⟩ : DhtEnv) 5 0 =
      some ([0, 0, 0, 0, 0], 1679) :=
  (dht_read_byte_msb_first ⟨fun t => if t % 41 = 40 then 1 else 0⟩ 0).2.2
    0 367 [0, 0, 0, 0] 1679 (by decide) (by decide)

end LabNode
